import Mathlib

/-!
Shallow embedding of the landlogiq-stripe webhook reconciliation pipeline.

The repository consists of several near-identical drafts of one Next.js
webhook route plus an administrative override route.  The definitions below
are translated from:

  * src/app/api/stripe-webhook/route.ts  (two variants in one file, split by
    a document separator: the first handles only checkout.session.completed
    and upserts audit columns inline; the second factors out
    getEmailFromCustomer / getPriceAndProductFromSub / upsertSupabase and
    handles three event types),
  * src/app/api/admin-set-plan/route.ts  (GET handler with PLAN_LIMIT),
  * src/unnamed/part_005  (resolvePlanById / resolvePlanFromSubscription).

External services are embedded as oracles: the Stripe API is a record of
functions (customer lookup, subscription line-item lookup), and the Supabase
upsert is a pure operation on a list of rows with a uniqueness key on the
email column.  Effectful handler code is modelled as pure functions that
also report the number of store writes and processor API calls performed.
-/

namespace LandLogiq

/-- Plan is the closed enumeration of the three sold plans
(the TS string-literal union in PlanInfo). -/
inductive Plan where
  | Basic
  | Pro
  | Elite
deriving DecidableEq, Repr

/-- PlanInfo from stripe-webhook/route.ts: a named plan together with its
usage limit encoded as text. -/
structure PlanInfo where
  plan : Plan
  limit : String
deriving DecidableEq, Repr

/-- String name of a plan as written into the plan column. -/
def planName : Plan → String
  | .Basic => "Basic"
  | .Pro => "Pro"
  | .Elite => "Elite"

/-- PlanInfo literal returned for each label in resolvePlan and friends. -/
def planInfoOf : Plan → PlanInfo
  | .Basic => ⟨.Basic, "10"⟩
  | .Pro => ⟨.Pro, "30"⟩
  | .Elite => ⟨.Elite, "unlimited"⟩

/-- ENV_IDS: the configured token (a price or product identifier) for each
plan label; a missing environment variable is modelled as none. -/
structure EnvIds where
  basic : Option String
  pro : Option String
  elite : Option String
deriving DecidableEq, Repr

/-- Object.entries of ENV_IDS: iteration order is the literal insertion
order Basic, Pro, Elite. -/
def EnvIds.entries (e : EnvIds) : List (Plan × Option String) :=
  [(.Basic, e.basic), (.Pro, e.pro), (.Elite, e.elite)]

/-- JavaScript truthiness of an optional string: null, undefined and the
empty string are falsy. -/
def jsNonEmpty : Option String → Option String
  | none => none
  | some s => if s = "" then none else some s

/-- Boolean test for a string literal leading another string, the
startsWith calls of resolvePlan, phrased on the underlying character
lists so that it evaluates inside the kernel. -/
def strStartsWith (s pre : String) : Bool :=
  pre.data.isPrefixOf s.data

/-- Lower-casing of a string, the toLowerCase call of the admin route,
phrased on the underlying character list so that it evaluates inside the
kernel. -/
def strToLower (s : String) : String :=
  ⟨s.data.map Char.toLower⟩

/-- Whitespace trimming on both ends, the trim call of the admin route,
phrased on the underlying character list. -/
def strTrim (s : String) : String :=
  ⟨((s.data.dropWhile Char.isWhitespace).reverse.dropWhile
      Char.isWhitespace).reverse⟩

/-- One iteration of the resolvePlan loop body: check the price condition
first, then the product condition, for a single ENV_IDS entry. -/
def entryMatch (priceId productId : Option String) (label : Plan)
    (id? : Option String) : Option PlanInfo :=
  match id? with
  | none => none
  | some id =>
    if strStartsWith id "price_" && priceId == some id then
      some (planInfoOf label)
    else if strStartsWith id "prod_" && productId == some id then
      some (planInfoOf label)
    else none

/-- Loop of resolvePlan over the ENV_IDS entries: the first entry whose
price or product condition fires wins. -/
def resolvePlanAux (priceId productId : Option String) :
    List (Plan × Option String) → Option PlanInfo
  | [] => none
  | (label, id?) :: rest =>
    match entryMatch priceId productId label id? with
    | some m => some m
    | none => resolvePlanAux priceId productId rest

/-- The resolvePlan function of stripe-webhook/route.ts: map a price id or a
product id to a PlanInfo by scanning ENV_IDS in label order. -/
def resolvePlan (env : EnvIds) (priceId productId : Option String) :
    Option PlanInfo :=
  resolvePlanAux priceId productId env.entries

/-- Loop of resolvePlanById (src/unnamed/part_005): first entry whose
configured token equals the given id wins; blank entries are skipped. -/
def resolvePlanByIdAux (id : String) :
    List (Plan × Option String) → Option PlanInfo
  | [] => none
  | (label, envId?) :: rest =>
    match envId? with
    | none => resolvePlanByIdAux id rest
    | some envId =>
      if envId = "" then resolvePlanByIdAux id rest
      else if envId = id then some (planInfoOf label)
      else resolvePlanByIdAux id rest

/-- The resolvePlanById function of src/unnamed/part_005: a falsy id
resolves to nothing without scanning. -/
def resolvePlanById (env : EnvIds) (id? : Option String) : Option PlanInfo :=
  match jsNonEmpty id? with
  | none => none
  | some id => resolvePlanByIdAux id env.entries

/-- The resolvePlanFromSubscription function of src/unnamed/part_005, after
the first line item has been projected to its price and product tokens:
resolvePlanById on the price id, falling back to the product id. -/
def resolvePlanFromSubscription (env : EnvIds)
    (priceId productId : Option String) : Option PlanInfo :=
  match resolvePlanById env priceId with
  | some m => some m
  | none => resolvePlanById env productId

/-- PLAN_LIMIT of admin-set-plan/route.ts as a lookup on the plan key; keys
outside basic, pro, elite are absent, which is exactly the includes check
guarding the Record access. -/
def planLimitTable : String → Option PlanInfo :=
  fun k =>
    if k = "basic" then some ⟨.Basic, "10"⟩
    else if k = "pro" then some ⟨.Pro, "30"⟩
    else if k = "elite" then some ⟨.Elite, "unlimited"⟩
    else none

/-- Subscriber Record row in the Supabase table.  Besides the columns this
system writes, credits_used stands for any column owned by other systems;
a none value is a NULL column. -/
structure Row where
  email : String
  plan : Option String
  daily_comp_limit : Option String
  stripe_customer_id : Option String
  stripe_subscription_id : Option String
  last_checkout_session_id : Option String
  updated_at : Option String
  credits_used : Option String
deriving DecidableEq, Repr

/-- Upsert payload: for each column, none means the column is absent from
the payload object (left untouched on conflict-update), some v means the
column is set to v (possibly NULL). -/
structure Payload where
  email : String
  plan : Option (Option String)
  daily_comp_limit : Option (Option String)
  stripe_customer_id : Option (Option String)
  stripe_subscription_id : Option (Option String)
  last_checkout_session_id : Option (Option String)
  updated_at : Option (Option String)
deriving DecidableEq, Repr

/-- Column update on conflict: keep the current value when the column is
absent from the payload, otherwise overwrite. -/
def setCol (cur : Option String) (v : Option (Option String)) : Option String :=
  match v with
  | none => cur
  | some w => w

/-- Effect of ON CONFLICT DO UPDATE on the conflicting row: every column
present in the payload is overwritten, the rest keep their values. -/
def applyPayload (p : Payload) (r : Row) : Row :=
  { email := p.email
    plan := setCol r.plan p.plan
    daily_comp_limit := setCol r.daily_comp_limit p.daily_comp_limit
    stripe_customer_id := setCol r.stripe_customer_id p.stripe_customer_id
    stripe_subscription_id := setCol r.stripe_subscription_id p.stripe_subscription_id
    last_checkout_session_id := setCol r.last_checkout_session_id p.last_checkout_session_id
    updated_at := setCol r.updated_at p.updated_at
    credits_used := r.credits_used }

/-- Fresh row inserted when no row conflicts: columns absent from the
payload are NULL. -/
def insertRow (p : Payload) : Row :=
  { email := p.email
    plan := setCol none p.plan
    daily_comp_limit := setCol none p.daily_comp_limit
    stripe_customer_id := setCol none p.stripe_customer_id
    stripe_subscription_id := setCol none p.stripe_subscription_id
    last_checkout_session_id := setCol none p.last_checkout_session_id
    updated_at := setCol none p.updated_at
    credits_used := none }

/-- Store membership test on the unique email column. -/
def containsEmail (e : String) (s : List Row) : Bool :=
  s.any (fun r => r.email == e)

/-- Replace the first row whose email column equals e. -/
def updateFirst (e : String) (f : Row → Row) : List Row → List Row
  | [] => []
  | r :: rest =>
    if r.email == e then f r :: rest else r :: updateFirst e f rest

/-- Supabase upsert with onConflict on the email column: update the
conflicting row when one exists, otherwise insert a fresh row. -/
def upsert (p : Payload) (s : List Row) : List Row :=
  if containsEmail p.email s then updateFirst p.email (applyPayload p) s
  else s ++ [insertRow p]

/-- Number of rows in the store carrying the given email. -/
def countEmail (e : String) (s : List Row) : Nat :=
  (s.filter (fun r => r.email == e)).length

/-- Payload written by upsertSupabase (second webhook variant) and by the
admin route: exactly the email key, plan and daily_comp_limit columns. -/
def mkPlanPayload (email : String) (m : PlanInfo) : Payload :=
  { email := email
    plan := some (some (planName m.plan))
    daily_comp_limit := some (some m.limit)
    stripe_customer_id := none
    stripe_subscription_id := none
    last_checkout_session_id := none
    updated_at := none }

/-- The State Writer upsertSupabase of the second webhook variant. -/
def upsertSupabase (email : String) (m : PlanInfo) (s : List Row) : List Row :=
  upsert (mkPlanPayload email m) s

/-- Payload built inline by the first webhook variant: the email key, the
Stripe customer, subscription and checkout-session identifiers (NULL when
absent), and the plan columns only when a mapping was resolved. -/
def mkUpsertRowV1 (email : String) (scid ssid : Option String)
    (sessionId : String) (mapping : Option PlanInfo) : Payload :=
  { email := email
    plan := mapping.map (fun m => some (planName m.plan))
    daily_comp_limit := mapping.map (fun m => some m.limit)
    stripe_customer_id := some scid
    stripe_subscription_id := some ssid
    last_checkout_session_id := some (some sessionId)
    updated_at := none }

/-- Stripe customer object as returned by customers.retrieve. -/
structure Customer where
  deleted : Bool
  email : Option String
deriving DecidableEq, Repr

/-- Stripe API oracle: customer lookup by id, and the (price id, product id)
of the first line item of a subscription as produced by
getPriceAndProductFromSub (none components when the subscription has no
line items). -/
structure StripeApi where
  customers : String → Customer
  subPrice : String → Option String × Option String

/-- Checkout session object fields read by the webhook handlers. -/
structure Session where
  customer_details_email : Option String
  customer_email : Option String
  customer : Option String
  mode : String
  subscription : Option String
  id : String
deriving DecidableEq, Repr

/-- getEmailFromCustomer (second variant) together with the number of
processor calls it performs: nothing to look up costs no call; a deleted
customer yields no email. -/
def getEmailFromCustomerC (api : StripeApi) :
    Option String → Option String × Nat
  | none => (none, 0)
  | some cid =>
    let c := api.customers cid
    (if c.deleted then none else c.email, 1)

/-- Pure value of getEmailFromCustomer. -/
def getEmailFromCustomer (api : StripeApi) (c : Option String) :
    Option String :=
  (getEmailFromCustomerC api c).1

/-- Email fallback chain of the second webhook variant checkout branch:
customer_details email, else legacy customer_email, else customer lookup. -/
def sessionEmailV2C (api : StripeApi) (s : Session) : Option String × Nat :=
  match jsNonEmpty s.customer_details_email with
  | some e => (some e, 0)
  | none =>
    match jsNonEmpty s.customer_email with
    | some e => (some e, 0)
    | none => getEmailFromCustomerC api s.customer

/-- Pure value of the second-variant email chain. -/
def sessionEmailV2 (api : StripeApi) (s : Session) : Option String :=
  (sessionEmailV2C api s).1

/-- Email resolution of the first webhook variant: the truthy chain over
the two embedded fields, then the guarded customer lookup. -/
def sessionEmailV1C (api : StripeApi) (s : Session) : Option String × Nat :=
  let e0 :=
    match jsNonEmpty s.customer_details_email with
    | some e => some e
    | none => jsNonEmpty s.customer_email
  match e0, s.customer with
  | none, some cid =>
    let c := api.customers cid
    (if c.deleted then none else c.email, 1)
  | e, _ => (e, 0)

/-- Pure value of the first-variant email chain. -/
def sessionEmailV1 (api : StripeApi) (s : Session) : Option String :=
  (sessionEmailV1C api s).1

/-- Price and product tokens for a checkout session (both variants use the
same lines): fetched from the referenced subscription only in subscription
mode, at the cost of one processor call. -/
def sessionIdsC (api : StripeApi) (s : Session) :
    (Option String × Option String) × Nat :=
  if s.mode = "subscription" then
    match s.subscription with
    | some subId => (api.subPrice subId, 1)
    | none => ((none, none), 0)
  else ((none, none), 0)

/-- Outcome of one handler run: transport status, resulting store, number
of store writes performed, number of processor API calls performed. -/
structure WebhookResult where
  status : Nat
  store : List Row
  writes : Nat
  calls : Nat
deriving DecidableEq, Repr

/-- Checkout branch of the first webhook variant: resolve email and tokens,
skip with 200 when no email, otherwise upsert the audit row (plan columns
included only when a mapping was found). -/
def handleCheckoutV1 (api : StripeApi) (env : EnvIds) (s : Session)
    (store : List Row) : WebhookResult :=
  let ec := sessionEmailV1C api s
  let ic := sessionIdsC api s
  let mapping := resolvePlan env ic.1.1 ic.1.2
  match jsNonEmpty ec.1 with
  | none => ⟨200, store, 0, ec.2 + ic.2⟩
  | some e =>
    ⟨200, upsert (mkUpsertRowV1 e s.customer s.subscription s.id mapping) store,
      1, ec.2 + ic.2⟩

/-- Checkout branch of the second webhook variant: skip with 200 when email
or mapping is missing, otherwise upsertSupabase. -/
def handleCheckoutV2 (api : StripeApi) (env : EnvIds) (s : Session)
    (store : List Row) : WebhookResult :=
  let ec := sessionEmailV2C api s
  let ic := sessionIdsC api s
  let mapping := resolvePlan env ic.1.1 ic.1.2
  match jsNonEmpty ec.1, mapping with
  | some e, some m => ⟨200, upsertSupabase e m store, 1, ec.2 + ic.2⟩
  | _, _ => ⟨200, store, 0, ec.2 + ic.2⟩

/-- Subscription object fields read by the customer.subscription.created
branch: the customer reference and the first embedded line item tokens. -/
structure SubObj where
  customer : Option String
  itemPriceId : Option String
  itemProductId : Option String
deriving DecidableEq, Repr

/-- Invoice object fields read by the invoice.payment_succeeded branch. -/
structure InvObj where
  customer_email : Option String
  customer : Option String
  subscription : Option String
deriving DecidableEq, Repr

/-- customer.subscription.created branch of the second variant: email via
customer lookup, tokens from the embedded first line item. -/
def handleSubCreatedV2 (api : StripeApi) (env : EnvIds) (so : SubObj)
    (store : List Row) : WebhookResult :=
  let ec := getEmailFromCustomerC api so.customer
  let mapping := resolvePlan env so.itemPriceId so.itemProductId
  match jsNonEmpty ec.1, mapping with
  | some e, some m => ⟨200, upsertSupabase e m store, 1, ec.2⟩
  | _, _ => ⟨200, store, 0, ec.2⟩

/-- invoice.payment_succeeded branch of the second variant: email from the
invoice or the customer, early 200 without a subscription id, otherwise
fetch the subscription tokens and reconcile. -/
def handleInvoiceV2 (api : StripeApi) (env : EnvIds) (inv : InvObj)
    (store : List Row) : WebhookResult :=
  let ec :=
    match jsNonEmpty inv.customer_email with
    | some e => (some e, 0)
    | none => getEmailFromCustomerC api inv.customer
  match inv.subscription with
  | none => ⟨200, store, 0, ec.2⟩
  | some subId =>
    let ids := api.subPrice subId
    let mapping := resolvePlan env ids.1 ids.2
    match jsNonEmpty ec.1, mapping with
    | some e, some m => ⟨200, upsertSupabase e m store, 1, ec.2 + 1⟩
    | _, _ => ⟨200, store, 0, ec.2 + 1⟩

/-- Deserialized webhook event: the type tag and the data object projected
to each of the shapes the switch casts it to. -/
structure Event where
  type : String
  session : Session
  sub : SubObj
  inv : InvObj
deriving DecidableEq, Repr

/-- Event switch of the second webhook variant POST handler; unrecognized
types are acknowledged with 200 and no effect. -/
def handleEventV2 (api : StripeApi) (env : EnvIds) (ev : Event)
    (store : List Row) : WebhookResult :=
  if ev.type = "checkout.session.completed" then
    handleCheckoutV2 api env ev.session store
  else if ev.type = "customer.subscription.created" then
    handleSubCreatedV2 api env ev.sub store
  else if ev.type = "invoice.payment_succeeded" then
    handleInvoiceV2 api env ev.inv store
  else ⟨200, store, 0, 0⟩

/-- POST handler of the second webhook variant.  The verify oracle stands
for the external stripe.webhooks.constructEvent library call on the raw
body, the signature header and the shared secret: it returns the parsed
event on success and none on a missing-secret, tampered-body or
wrong-signature failure, in which case the handler answers 400 before any
reconciliation work. -/
def POSTV2 (verify : String → String → Option Event) (api : StripeApi)
    (env : EnvIds) (sig : Option String) (rawBody : String)
    (store : List Row) : WebhookResult :=
  match sig with
  | none => ⟨400, store, 0, 0⟩
  | some sg =>
    match verify rawBody sg with
    | none => ⟨400, store, 0, 0⟩
    | some ev => handleEventV2 api env ev store

/-- Request shape of the admin-set-plan GET endpoint. -/
structure AdminRequest where
  secretParam : Option String
  headerSecret : Option String
  emailParam : Option String
  planParam : Option String
deriving DecidableEq, Repr

/-- Outcome of the admin endpoint: status, resulting store, writes. -/
structure AdminResult where
  status : Nat
  store : List Row
  writes : Nat
deriving DecidableEq, Repr

/-- Secret supplied to the admin endpoint: the query parameter when truthy,
else the header value. -/
def adminSuppliedSecret (req : AdminRequest) : Option String :=
  match jsNonEmpty req.secretParam with
  | some s => some s
  | none => req.headerSecret

/-- Email key the admin endpoint derives from the query parameter: trimmed
and lower-cased. -/
def adminEmailKey (e : String) : String := strToLower (strTrim e)

/-- GET handler of admin-set-plan/route.ts: reject a falsy or mismatched
secret with 401; trim and lower-case email and plan; reject an empty email
or an unknown plan key with 400; otherwise upsert the plan payload keyed on
the normalized email. -/
def adminGET (adminSecret : Option String) (req : AdminRequest)
    (store : List Row) : AdminResult :=
  match jsNonEmpty (adminSuppliedSecret req) with
  | none => ⟨401, store, 0⟩
  | some s =>
    if adminSecret = some s then
      let email := adminEmailKey (req.emailParam.getD "")
      let planKey := strToLower (strTrim (req.planParam.getD ""))
      if email = "" then ⟨400, store, 0⟩
      else
        match planLimitTable planKey with
        | none => ⟨400, store, 0⟩
        | some m => ⟨200, upsert (mkPlanPayload email m) store, 1⟩
    else ⟨401, store, 0⟩

theorem setCol_idem (c : Option String) (v : Option (Option String)) :
    setCol (setCol c v) v = setCol c v := by
  cases v <;> rfl

theorem applyPayload_email (p : Payload) (r : Row) :
    (applyPayload p r).email = p.email := rfl

theorem applyPayload_idem (p : Payload) (r : Row) :
    applyPayload p (applyPayload p r) = applyPayload p r := by
  simp [applyPayload, setCol_idem]

theorem applyPayload_insertRow (p : Payload) :
    applyPayload p (insertRow p) = insertRow p := by
  simp [applyPayload, insertRow, setCol_idem]

theorem updateFirst_append_left (e : String) (f : Row → Row)
    (s t : List Row) (h : containsEmail e s = false) :
    updateFirst e f (s ++ t) = s ++ updateFirst e f t := by
  induction s with
  | nil => rfl
  | cons r rest ih =>
    have h1 : (r.email == e) = false ∧ containsEmail e rest = false := by
      simpa [containsEmail, Bool.or_eq_false_iff] using h
    simp [updateFirst, h1.1, ih h1.2]

theorem updateFirst_apply_idem (p : Payload) (s : List Row) :
    updateFirst p.email (applyPayload p) (updateFirst p.email (applyPayload p) s) =
      updateFirst p.email (applyPayload p) s := by
  induction s with
  | nil => rfl
  | cons r rest ih =>
    by_cases hr : r.email == p.email
    · have he : ((applyPayload p r).email == p.email) = true := by
        simp [applyPayload]
      simp [updateFirst, hr, he, applyPayload_idem]
    · simp [updateFirst, hr, ih]

theorem containsEmail_updateFirst_apply (p : Payload) (s : List Row) :
    containsEmail p.email (updateFirst p.email (applyPayload p) s) =
      containsEmail p.email s := by
  induction s with
  | nil => rfl
  | cons r rest ih =>
    by_cases hr : r.email == p.email
    · have he : ((applyPayload p r).email == p.email) = true := by
        simp [applyPayload]
      simp [updateFirst, containsEmail, hr, he]
    · simp only [updateFirst, if_neg hr]
      simpa [containsEmail, hr] using ih

theorem containsEmail_upsert (p : Payload) (s : List Row) :
    containsEmail p.email (upsert p s) = true := by
  unfold upsert
  by_cases hc : containsEmail p.email s
  · simpa [hc] using (containsEmail_updateFirst_apply p s).trans hc
  · simp only [hc, if_neg, Bool.false_eq_true, not_false_eq_true, if_false]
    simp [containsEmail, insertRow]

theorem upsert_upsert (p : Payload) (s : List Row) :
    upsert p (upsert p s) = upsert p s := by
  have hc2 : containsEmail p.email (upsert p s) = true := containsEmail_upsert p s
  by_cases hc : containsEmail p.email s
  · have h1 : upsert p s = updateFirst p.email (applyPayload p) s := by
      simp [upsert, hc]
    rw [h1] at hc2 ⊢
    simp [upsert, hc2, updateFirst_apply_idem]
  · have hcf : containsEmail p.email s = false := by
      simpa using hc
    have h1 : upsert p s = s ++ [insertRow p] := by
      simp [upsert, hcf]
    rw [h1] at hc2 ⊢
    have he : ((insertRow p).email == p.email) = true := by
      simp [insertRow]
    simp [upsert, hc2, updateFirst_append_left p.email _ s _ hcf,
      updateFirst, he, applyPayload_insertRow]

theorem countEmail_eq_zero_of_not_contains (e : String) (s : List Row)
    (h : containsEmail e s = false) : countEmail e s = 0 := by
  induction s with
  | nil => rfl
  | cons r rest ih =>
    have h1 : (r.email == e) = false ∧ containsEmail e rest = false := by
      simpa [containsEmail, Bool.or_eq_false_iff] using h
    simp [countEmail, List.filter, h1.1]
    simpa [countEmail] using ih h1.2

theorem countEmail_updateFirst_apply (p : Payload) (s : List Row) :
    countEmail p.email (updateFirst p.email (applyPayload p) s) =
      countEmail p.email s := by
  induction s with
  | nil => rfl
  | cons r rest ih =>
    by_cases hr : r.email == p.email
    · have he : ((applyPayload p r).email == p.email) = true := by
        simp [applyPayload]
      simp [updateFirst, countEmail, List.filter, hr, he]
    · simp only [updateFirst, if_neg hr]
      have hrf : (r.email == p.email) = false := by simpa using hr
      simpa [countEmail, List.filter, hrf] using ih

theorem countEmail_upsert_le_one (p : Payload) (s : List Row)
    (h : countEmail p.email s ≤ 1) :
    countEmail p.email (upsert p s) ≤ 1 := by
  by_cases hc : containsEmail p.email s
  · have h1 : upsert p s = updateFirst p.email (applyPayload p) s := by
      simp [upsert, hc]
    rw [h1, countEmail_updateFirst_apply]
    exact h
  · have hcf : containsEmail p.email s = false := by simpa using hc
    have h1 : upsert p s = s ++ [insertRow p] := by
      simp [upsert, hcf]
    have he : ((insertRow p).email == p.email) = true := by
      simp [insertRow]
    rw [h1]
    have h0 : countEmail p.email s = 0 :=
      countEmail_eq_zero_of_not_contains p.email s hcf
    simp only [countEmail, List.filter_append, List.length_append] at h0 ⊢
    rw [h0]
    simp [List.filter, he]

/-- C1: running the State Writer upsert twice with identical email, plan
and usage limit leaves the subscriber store exactly as running it once,
and the store keeps at most one row for that email, provided the
unique-email constraint held before the write. -/
theorem upsert_apply_idempotent (e : String) (m : PlanInfo) (s : List Row)
    (h : countEmail e s ≤ 1) :
    upsertSupabase e m (upsertSupabase e m s) = upsertSupabase e m s ∧
      countEmail e (upsertSupabase e m s) ≤ 1 :=
  ⟨upsert_upsert (mkPlanPayload e m) s,
   countEmail_upsert_le_one (mkPlanPayload e m) s h⟩

/-- Concrete instance of C1: the idempotence theorem applied to an empty
store and the Basic mapping. -/
theorem upsert_apply_idempotent_witness :
    countEmail "a@x.com" ([] : List Row) ≤ 1 ∧
      (upsertSupabase "a@x.com" ⟨.Basic, "10"⟩
          (upsertSupabase "a@x.com" ⟨.Basic, "10"⟩ []) =
        upsertSupabase "a@x.com" ⟨.Basic, "10"⟩ [] ∧
      countEmail "a@x.com" (upsertSupabase "a@x.com" ⟨.Basic, "10"⟩ []) ≤ 1) :=
  ⟨by decide, upsert_apply_idempotent "a@x.com" ⟨.Basic, "10"⟩ [] (by decide)⟩

/-- Plan Mapping Table configuration used as the C2 counterexample: the
Basic entry is configured with a product token, the Pro and Elite entries
with price tokens, all of which the code explicitly supports. -/
def cexEnvC2 : EnvIds := ⟨some "prod_A", some "price_B", some "price_C"⟩

/-- C2 fails on resolvePlan: with the Basic entry holding a product token
and the Pro entry a price token, an event whose price token matches the
Pro entry and whose product token matches the Basic entry resolves to
Basic, not to the entry matched by the price token. -/
theorem resolvePlan_product_beats_price_cex :
    resolvePlan cexEnvC2 (some "price_B") none = some (planInfoOf .Pro) ∧
    resolvePlan cexEnvC2 none (some "prod_A") = some (planInfoOf .Basic) ∧
    resolvePlan cexEnvC2 (some "price_B") (some "prod_A") =
      some (planInfoOf .Basic) ∧
    planInfoOf .Basic ≠ planInfoOf .Pro := by
  decide

/-- C2 amended: resolvePlanFromSubscription of src/unnamed/part_005 gives
the price match full precedence over the product token, while resolvePlan
of stripe-webhook/route.ts returns the first entry in Basic, Pro, Elite
order that matches either token, so a product match on the Basic entry
wins no matter which later entry the price token matches. -/
theorem resolvePlanFromSubscription_price_precedence
    (env : EnvIds) (p q : Option String) :
    (∀ m, resolvePlanById env p = some m →
      resolvePlanFromSubscription env p q = some m) ∧
    (∀ id, env.basic = some id → strStartsWith id "prod_" = true →
      strStartsWith id "price_" = false → q = some id →
      resolvePlan env p q = some (planInfoOf .Basic)) := by
  constructor
  · intro m h
    simp [resolvePlanFromSubscription, h]
  · intro id hb hprod hpr hq
    simp [resolvePlan, EnvIds.entries, resolvePlanAux, entryMatch,
      hb, hq, hprod, hpr]

/-- Concrete instance of the amended C2: a matching price token wins in
resolvePlanFromSubscription, and the same tokens make the product match
win in resolvePlan. -/
theorem resolvePlanFromSubscription_price_precedence_witness :
    resolvePlanById cexEnvC2 (some "price_B") = some (planInfoOf .Pro) ∧
    resolvePlanFromSubscription cexEnvC2 (some "price_B") (some "prod_A") =
      some (planInfoOf .Pro) ∧
    resolvePlan cexEnvC2 (some "price_B") (some "prod_A") =
      some (planInfoOf .Basic) :=
  ⟨by decide,
   (resolvePlanFromSubscription_price_precedence cexEnvC2 (some "price_B")
      (some "prod_A")).1 (planInfoOf .Pro) (by decide),
   (resolvePlanFromSubscription_price_precedence cexEnvC2 (some "price_B")
      (some "prod_A")).2 "prod_A" rfl (by decide) (by decide) rfl⟩

/-- Stripe oracle used by the C3 counterexample: a live customer with no
email on file, and a subscription whose first line item carries tokens
matching no mapping entry. -/
def cexApiC3 : StripeApi :=
  ⟨fun _ => ⟨false, none⟩, fun _ => (some "price_X", some "prod_X")⟩

/-- Mapping configuration for C3: three price tokens, none equal to the
tokens of the event subscription. -/
def cexEnvC3 : EnvIds :=
  ⟨some "price_basic1", some "price_pro1", some "price_elite1"⟩

/-- Checkout session for C3: embedded email, subscription mode, referenced
subscription. -/
def cexSessionC3 : Session :=
  ⟨some "a@x.com", none, some "cus_1", "subscription", some "sub_1", "cs_1"⟩

/-- C3 fails on the first webhook variant: on a checkout event with a
resolvable email whose tokens match no mapping entry, it responds 200 but
still performs one store write, creating a row for that email. -/
theorem handleCheckoutV1_unmapped_writes_cex :
    resolvePlan cexEnvC3 (some "price_X") (some "prod_X") = none ∧
    (handleCheckoutV1 cexApiC3 cexEnvC3 cexSessionC3 []).status = 200 ∧
    (handleCheckoutV1 cexApiC3 cexEnvC3 cexSessionC3 []).writes = 1 ∧
    (handleCheckoutV1 cexApiC3 cexEnvC3 cexSessionC3 []).store ≠ [] := by
  decide

/-- C3 amended: on a recognized checkout event with a resolvable email
whose resolved tokens match no mapping entry, both webhook variants
respond 200; the consolidated variant performs zero writes and leaves the
store untouched, while the first variant still performs one upsert
carrying the Stripe identifiers, with the plan and usage-limit columns
absent from its payload. -/
theorem handleCheckoutV2_unmapped_skip (api : StripeApi) (env : EnvIds)
    (s : Session) (store : List Row) (e : String)
    (h2 : jsNonEmpty (sessionEmailV2 api s) = some e)
    (h1 : jsNonEmpty (sessionEmailV1 api s) = some e)
    (hm : resolvePlan env (sessionIdsC api s).1.1 (sessionIdsC api s).1.2 = none) :
    (handleCheckoutV2 api env s store).status = 200 ∧
    (handleCheckoutV2 api env s store).store = store ∧
    (handleCheckoutV2 api env s store).writes = 0 ∧
    (handleCheckoutV1 api env s store).status = 200 ∧
    (handleCheckoutV1 api env s store).store =
      upsert (mkUpsertRowV1 e s.customer s.subscription s.id none) store ∧
    (mkUpsertRowV1 e s.customer s.subscription s.id none).plan = none ∧
    (mkUpsertRowV1 e s.customer s.subscription s.id none).daily_comp_limit =
      none := by
  simp only [sessionEmailV2] at h2
  simp only [sessionEmailV1] at h1
  refine ⟨?_, ?_, ?_, ?_, ?_, rfl, rfl⟩ <;>
    simp [handleCheckoutV2, handleCheckoutV1, h2, h1, hm, mkUpsertRowV1]

/-- Concrete instance of the amended C3: unmapped tokens on the concrete
counterexample inputs leave the consolidated store untouched with a 200. -/
theorem handleCheckoutV2_unmapped_skip_witness :
    jsNonEmpty (sessionEmailV2 cexApiC3 cexSessionC3) = some "a@x.com" ∧
    ((handleCheckoutV2 cexApiC3 cexEnvC3 cexSessionC3 []).status = 200 ∧
      (handleCheckoutV2 cexApiC3 cexEnvC3 cexSessionC3 []).store = [] ∧
      (handleCheckoutV2 cexApiC3 cexEnvC3 cexSessionC3 []).writes = 0 ∧
      (handleCheckoutV1 cexApiC3 cexEnvC3 cexSessionC3 []).status = 200 ∧
      (handleCheckoutV1 cexApiC3 cexEnvC3 cexSessionC3 []).store =
        upsert (mkUpsertRowV1 "a@x.com" cexSessionC3.customer
          cexSessionC3.subscription cexSessionC3.id none) [] ∧
      (mkUpsertRowV1 "a@x.com" cexSessionC3.customer cexSessionC3.subscription
        cexSessionC3.id none).plan = none ∧
      (mkUpsertRowV1 "a@x.com" cexSessionC3.customer cexSessionC3.subscription
        cexSessionC3.id none).daily_comp_limit = none) :=
  ⟨by decide,
   handleCheckoutV2_unmapped_skip cexApiC3 cexEnvC3 cexSessionC3 [] "a@x.com"
     (by decide) (by decide) (by decide)⟩

/-- C4 fails: for the input email with mixed casing, the webhook
reconciliation path writes the resolved email unchanged as the uniqueness
key, while the administrative override writes its trimmed lower-cased
form, so the two write paths produce different keys. -/
theorem email_key_divergence_cex :
    (mkPlanPayload "A@X.com" (planInfoOf .Basic)).email = "A@X.com" ∧
    adminEmailKey "A@X.com" = "a@x.com" ∧
    (mkPlanPayload "A@X.com" (planInfoOf .Basic)).email ≠
      adminEmailKey "A@X.com" := by
  decide

/-- C4 amended: only the administrative override normalizes the key, by
trimming and lower-casing; the webhook write paths use the resolved email
as-is, and the keys of the two paths agree exactly on emails that are
already trimmed and lower-case. -/
theorem email_key_agreement (e : String) (m : PlanInfo) :
    (mkPlanPayload e m).email = e ∧
    adminEmailKey e = strToLower (strTrim e) ∧
    (adminEmailKey e = e → adminEmailKey e = (mkPlanPayload e m).email) := by
  refine ⟨rfl, rfl, ?_⟩
  intro h
  exact h

/-- Concrete instance of the amended C4: an already-normalized email gives
the same key on both write paths. -/
theorem email_key_agreement_witness :
    adminEmailKey "a@x.com" = "a@x.com" ∧
    adminEmailKey "a@x.com" = (mkPlanPayload "a@x.com" (planInfoOf .Pro)).email :=
  ⟨by decide,
   (email_key_agreement "a@x.com" (planInfoOf .Pro)).2.2 (by decide)⟩

/-- C5: the identity resolver tries the embedded customer-contact email,
then the legacy customer_email field, then the external customer lookup,
first non-empty winning; a deleted customer and a missing reference both
resolve to absent rather than an error, a live customer contributes its
on-file email, and the inline chain of the first variant agrees with
getEmailFromCustomer-based chain of the second. -/
theorem identity_resolution_chain (api : StripeApi) (s : Session) :
    (∀ e, jsNonEmpty s.customer_details_email = some e →
      sessionEmailV2 api s = some e) ∧
    (jsNonEmpty s.customer_details_email = none →
      ∀ e, jsNonEmpty s.customer_email = some e →
        sessionEmailV2 api s = some e) ∧
    (jsNonEmpty s.customer_details_email = none →
      jsNonEmpty s.customer_email = none →
      sessionEmailV2 api s = getEmailFromCustomer api s.customer) ∧
    (∀ cid, s.customer = some cid → (api.customers cid).deleted = true →
      getEmailFromCustomer api s.customer = none) ∧
    (s.customer = none → getEmailFromCustomer api s.customer = none) ∧
    (∀ cid, s.customer = some cid → (api.customers cid).deleted = false →
      getEmailFromCustomer api s.customer = (api.customers cid).email) ∧
    sessionEmailV1 api s = sessionEmailV2 api s := by
  refine ⟨?_, ?_, ?_, ?_, ?_, ?_, ?_⟩
  · intro e h
    simp [sessionEmailV2, sessionEmailV2C, h]
  · intro h1 e h2
    simp [sessionEmailV2, sessionEmailV2C, h1, h2]
  · intro h1 h2
    simp [sessionEmailV2, sessionEmailV2C, getEmailFromCustomer, h1, h2]
  · intro cid hc hd
    simp [getEmailFromCustomer, getEmailFromCustomerC, hc, hd]
  · intro hc
    simp [getEmailFromCustomer, getEmailFromCustomerC, hc]
  · intro cid hc hd
    simp [getEmailFromCustomer, getEmailFromCustomerC, hc, hd]
  · cases h1 : jsNonEmpty s.customer_details_email <;>
      cases h2 : jsNonEmpty s.customer_email <;>
      cases h3 : s.customer <;>
      simp [sessionEmailV1, sessionEmailV2, sessionEmailV1C, sessionEmailV2C,
        getEmailFromCustomerC, h1, h2, h3]

/-- Stripe oracle for the C5 instance: every customer is marked deleted. -/
def c5Api : StripeApi :=
  ⟨fun _ => ⟨true, some "zombie@x.com"⟩, fun _ => (none, none)⟩

/-- Session for the C5 instance: blank embedded email, no legacy field,
customer reference present. -/
def c5Session : Session :=
  ⟨some "", none, some "cus_9", "payment", none, "cs_9"⟩

/-- Concrete instance of C5: with both embedded fields empty the chain
falls through to the customer lookup, and a deleted customer resolves to
absent. -/
theorem identity_resolution_chain_witness :
    sessionEmailV2 c5Api c5Session =
      getEmailFromCustomer c5Api c5Session.customer ∧
    getEmailFromCustomer c5Api c5Session.customer = none :=
  ⟨(identity_resolution_chain c5Api c5Session).2.2.1 (by decide) (by decide),
   (identity_resolution_chain c5Api c5Session).2.2.2.1 "cus_9" rfl (by decide)⟩

/-- C6: a missing signature header, or a raw body and signature the
verification call rejects (tampered body or wrong signature), makes the
endpoint answer 400 with the store untouched, zero writes and zero
processor calls before any reconciliation work. -/
theorem signature_gate (verify : String → String → Option Event)
    (api : StripeApi) (env : EnvIds) (sig : Option String) (rawBody : String)
    (store : List Row)
    (h : sig = none ∨ ∃ sg, sig = some sg ∧ verify rawBody sg = none) :
    POSTV2 verify api env sig rawBody store =
      ⟨400, store, 0, 0⟩ := by
  rcases h with h | ⟨sg, hs, hv⟩
  · simp [POSTV2, h]
  · simp [POSTV2, hs, hv]

/-- Concrete instance of C6: a verifier that rejects everything, with a
present-but-wrong signature and with a missing header. -/
theorem signature_gate_witness :
    POSTV2 (fun _ _ => none)
        ⟨fun _ => ⟨false, none⟩, fun _ => (none, none)⟩
        ⟨none, none, none⟩ (some "bad") "tampered" [] = ⟨400, [], 0, 0⟩ ∧
    POSTV2 (fun _ _ => none)
        ⟨fun _ => ⟨false, none⟩, fun _ => (none, none)⟩
        ⟨none, none, none⟩ none "body" [] = ⟨400, [], 0, 0⟩ :=
  ⟨signature_gate (fun _ _ => none) ⟨fun _ => ⟨false, none⟩, fun _ => (none, none)⟩
      ⟨none, none, none⟩ (some "bad") "tampered" []
      (Or.inr ⟨"bad", rfl, rfl⟩),
   signature_gate (fun _ _ => none) ⟨fun _ => ⟨false, none⟩, fun _ => (none, none)⟩
      ⟨none, none, none⟩ none "body" [] (Or.inl rfl)⟩

/-- C7: a verified checkout event with no embedded email, no legacy email
and no customer reference is acknowledged with 200 and performs zero
subscriber-store writes, in both webhook variants. -/
theorem no_email_skip (api : StripeApi) (env : EnvIds) (s : Session)
    (so : SubObj) (inv : InvObj) (store : List Row)
    (h1 : jsNonEmpty s.customer_details_email = none)
    (h2 : jsNonEmpty s.customer_email = none)
    (h3 : s.customer = none)
    (h4 : so.customer = none)
    (h5 : jsNonEmpty inv.customer_email = none)
    (h6 : inv.customer = none) :
    (handleCheckoutV2 api env s store).status = 200 ∧
    (handleCheckoutV2 api env s store).store = store ∧
    (handleCheckoutV2 api env s store).writes = 0 ∧
    (handleCheckoutV1 api env s store).status = 200 ∧
    (handleCheckoutV1 api env s store).store = store ∧
    (handleCheckoutV1 api env s store).writes = 0 ∧
    (handleSubCreatedV2 api env so store).status = 200 ∧
    (handleSubCreatedV2 api env so store).store = store ∧
    (handleSubCreatedV2 api env so store).writes = 0 ∧
    (handleInvoiceV2 api env inv store).status = 200 ∧
    (handleInvoiceV2 api env inv store).store = store ∧
    (handleInvoiceV2 api env inv store).writes = 0 := by
  have hv2 : sessionEmailV2C api s = (none, 0) := by
    simp [sessionEmailV2C, getEmailFromCustomerC, h1, h2, h3]
  have hv1 : sessionEmailV1C api s = (none, 0) := by
    simp [sessionEmailV1C, h1, h2, h3]
  have hco : (handleCheckoutV2 api env s store).status = 200 ∧
      (handleCheckoutV2 api env s store).store = store ∧
      (handleCheckoutV2 api env s store).writes = 0 ∧
      (handleCheckoutV1 api env s store).status = 200 ∧
      (handleCheckoutV1 api env s store).store = store ∧
      (handleCheckoutV1 api env s store).writes = 0 := by
    cases hm : resolvePlan env (sessionIdsC api s).1.1 (sessionIdsC api s).1.2 <;>
      refine ⟨?_, ?_, ?_, ?_, ?_, ?_⟩ <;>
      simp [handleCheckoutV2, handleCheckoutV1, hv2, hv1, hm, jsNonEmpty]
  have hsc : (handleSubCreatedV2 api env so store).status = 200 ∧
      (handleSubCreatedV2 api env so store).store = store ∧
      (handleSubCreatedV2 api env so store).writes = 0 := by
    cases hm : resolvePlan env so.itemPriceId so.itemProductId <;>
      refine ⟨?_, ?_, ?_⟩ <;>
      simp [handleSubCreatedV2, getEmailFromCustomerC, h4, hm, jsNonEmpty]
  have hin : (handleInvoiceV2 api env inv store).status = 200 ∧
      (handleInvoiceV2 api env inv store).store = store ∧
      (handleInvoiceV2 api env inv store).writes = 0 := by
    simp only [handleInvoiceV2, h5, h6, getEmailFromCustomerC]
    cases hsub : inv.subscription with
    | none => exact ⟨rfl, rfl, rfl⟩
    | some subId =>
      cases hm2 : resolvePlan env (api.subPrice subId).1 (api.subPrice subId).2 <;>
        refine ⟨?_, ?_, ?_⟩ <;> simp [hm2, jsNonEmpty]
  exact ⟨hco.1, hco.2.1, hco.2.2.1, hco.2.2.2.1, hco.2.2.2.2.1,
    hco.2.2.2.2.2, hsc.1, hsc.2.1, hsc.2.2, hin.1, hin.2.1, hin.2.2⟩

/-- Stripe oracle for the C7 instance: a mapped price token is available,
so only the missing email causes the skip. -/
def c7Api : StripeApi :=
  ⟨fun _ => ⟨false, none⟩, fun _ => (some "price_b1", none)⟩

/-- Mapping configuration for the C7 instance. -/
def c7Env : EnvIds := ⟨some "price_b1", none, none⟩

/-- Checkout session for the C7 instance: no email anywhere, no customer
reference. -/
def c7Session : Session :=
  ⟨none, none, none, "subscription", some "sub_2", "cs_2"⟩

/-- Subscription object for the C7 instance: no customer reference. -/
def c7Sub : SubObj := ⟨none, some "price_b1", none⟩

/-- Invoice object for the C7 instance: no email, no customer, but a
subscription reference. -/
def c7Inv : InvObj := ⟨some "", none, some "sub_2"⟩

/-- Concrete instance of C7: the skip leaves the empty concrete store
untouched on every actionable branch. -/
theorem no_email_skip_witness :
    (handleCheckoutV2 c7Api c7Env c7Session []).status = 200 ∧
    (handleCheckoutV2 c7Api c7Env c7Session []).store = [] ∧
    (handleCheckoutV2 c7Api c7Env c7Session []).writes = 0 ∧
    (handleCheckoutV1 c7Api c7Env c7Session []).status = 200 ∧
    (handleCheckoutV1 c7Api c7Env c7Session []).store = [] ∧
    (handleCheckoutV1 c7Api c7Env c7Session []).writes = 0 ∧
    (handleSubCreatedV2 c7Api c7Env c7Sub []).status = 200 ∧
    (handleSubCreatedV2 c7Api c7Env c7Sub []).store = [] ∧
    (handleSubCreatedV2 c7Api c7Env c7Sub []).writes = 0 ∧
    (handleInvoiceV2 c7Api c7Env c7Inv []).status = 200 ∧
    (handleInvoiceV2 c7Api c7Env c7Inv []).store = [] ∧
    (handleInvoiceV2 c7Api c7Env c7Inv []).writes = 0 :=
  no_email_skip c7Api c7Env c7Session c7Sub c7Inv [] rfl rfl rfl rfl
    (by decide) rfl

/-- Existing subscriber row used for the C8 counterexample, carrying audit
columns from an earlier checkout and a column owned by another system. -/
def c8Row : Row :=
  ⟨"a@x.com", some "Basic", some "10", some "cus_old", none, some "cs_old",
    none, some "7"⟩

/-- Payload the first webhook variant builds for a later checkout by the
same subscriber. -/
def c8Payload : Payload :=
  mkUpsertRowV1 "a@x.com" (some "cus_new") (some "sub_new") "cs_new"
    (some (planInfoOf .Pro))

/-- C8 fails on the first-variant payload: updating the existing row also
overwrites stripe_customer_id, stripe_subscription_id and
last_checkout_session_id, fields outside the plan and usage-limit pair. -/
theorem upsertRowV1_overwrites_audit_fields_cex :
    upsert c8Payload [c8Row] =
      [⟨"a@x.com", some "Pro", some "30", some "cus_new", some "sub_new",
        some "cs_new", none, some "7"⟩] ∧
    (some "cus_new" : Option String) ≠ c8Row.stripe_customer_id ∧
    (some "cs_new" : Option String) ≠ c8Row.last_checkout_session_id := by
  decide

/-- C8 amended: the upsertSupabase write path updates only the email key,
plan and usage-limit columns of the conflicting row, leaving every other
field of every row unchanged; the first-variant inline payload additionally
overwrites the three Stripe audit identifier columns. -/
theorem upsertSupabase_frame (e : String) (m : PlanInfo) (s : List Row)
    (h : containsEmail e s = true) :
    List.Forall₂ (fun r r' =>
      r'.email = r.email ∧
      r'.stripe_customer_id = r.stripe_customer_id ∧
      r'.stripe_subscription_id = r.stripe_subscription_id ∧
      r'.last_checkout_session_id = r.last_checkout_session_id ∧
      r'.updated_at = r.updated_at ∧
      r'.credits_used = r.credits_used) s (upsertSupabase e m s) := by
  have hus : upsertSupabase e m s =
      updateFirst e (applyPayload (mkPlanPayload e m)) s := by
    simp [upsertSupabase, upsert, mkPlanPayload, h]
  rw [hus]
  clear hus
  induction s with
  | nil => exact List.Forall₂.nil
  | cons r rest ih =>
    by_cases hr : r.email == e
    · have hre : r.email = e := eq_of_beq hr
      simp only [updateFirst, if_pos hr]
      refine List.Forall₂.cons ?_ ?_
      · exact ⟨hre.symm, rfl, rfl, rfl, rfl, rfl⟩
      · exact List.forall₂_same.mpr (fun x _ => ⟨rfl, rfl, rfl, rfl, rfl, rfl⟩)
    · have hrest : containsEmail e rest = true := by
        have h1 := h
        simp [containsEmail, List.any_cons] at h1
        rcases h1 with h1 | h1
        · exact absurd (by simpa using h1) (by simpa using hr)
        · simpa [containsEmail] using h1
      simp only [updateFirst, if_neg hr]
      exact List.Forall₂.cons ⟨rfl, rfl, rfl, rfl, rfl, rfl⟩ (ih hrest)

/-- Concrete instance of the amended C8: updating the concrete row changes
none of the audit columns under the upsertSupabase payload. -/
theorem upsertSupabase_frame_witness :
    containsEmail "a@x.com" [c8Row] = true ∧
    List.Forall₂ (fun r r' =>
      r'.email = r.email ∧
      r'.stripe_customer_id = r.stripe_customer_id ∧
      r'.stripe_subscription_id = r.stripe_subscription_id ∧
      r'.last_checkout_session_id = r.last_checkout_session_id ∧
      r'.updated_at = r.updated_at ∧
      r'.credits_used = r.credits_used) [c8Row]
      (upsertSupabase "a@x.com" (planInfoOf .Pro) [c8Row]) :=
  ⟨by decide,
   upsertSupabase_frame "a@x.com" (planInfoOf .Pro) [c8Row] (by decide)⟩

theorem entryMatch_shape (p q : Option String) (label : Plan)
    (id? : Option String) (m : PlanInfo)
    (h : entryMatch p q label id? = some m) : m = planInfoOf label := by
  unfold entryMatch at h
  cases id? with
  | none => cases h
  | some id =>
    by_cases h1 : strStartsWith id "price_" && p == some id
    · simp [h1] at h
      exact h.symm
    · by_cases h2 : strStartsWith id "prod_" && q == some id
      · simp [h1, h2] at h
        exact h.symm
      · simp [h1, h2] at h

theorem resolvePlanAux_shape (p q : Option String)
    (l : List (Plan × Option String)) (m : PlanInfo)
    (h : resolvePlanAux p q l = some m) : ∃ label, m = planInfoOf label := by
  induction l with
  | nil => cases h
  | cons hd rest ih =>
    obtain ⟨label, id?⟩ := hd
    unfold resolvePlanAux at h
    cases hm : entryMatch p q label id? with
    | some m0 =>
      rw [hm] at h
      injection h with h
      exact ⟨label, h ▸ entryMatch_shape p q label id? m0 hm⟩
    | none =>
      rw [hm] at h
      exact ih h

theorem resolvePlanByIdAux_shape (id : String)
    (l : List (Plan × Option String)) (m : PlanInfo)
    (h : resolvePlanByIdAux id l = some m) : ∃ label, m = planInfoOf label := by
  induction l with
  | nil => cases h
  | cons hd rest ih =>
    obtain ⟨label, envId?⟩ := hd
    cases envId? with
    | none =>
      simp only [resolvePlanByIdAux] at h
      exact ih h
    | some envId =>
      simp only [resolvePlanByIdAux] at h
      by_cases h1 : envId = ""
      · rw [if_pos h1] at h
        exact ih h
      · rw [if_neg h1] at h
        by_cases h2 : envId = id
        · rw [if_pos h2] at h
          injection h with h
          exact ⟨label, h.symm⟩
        · rw [if_neg h2] at h
          exact ih h

theorem planInfoOf_cases (label : Plan) :
    planInfoOf label = ⟨.Basic, "10"⟩ ∨ planInfoOf label = ⟨.Pro, "30"⟩ ∨
      planInfoOf label = ⟨.Elite, "unlimited"⟩ := by
  cases label <;> simp [planInfoOf]

/-- C9: every PlanInfo any write path can obtain, from resolvePlan, from
resolvePlanById or from the admin PLAN_LIMIT table, is one of exactly the
three pairs Basic with 10, Pro with 30, Elite with unlimited; the limit is
therefore determined by the plan written alongside it. -/
theorem written_plan_limit_pairs (env : EnvIds) (p q id? : Option String)
    (k : String) (m : PlanInfo)
    (h : resolvePlan env p q = some m ∨ resolvePlanById env id? = some m ∨
      planLimitTable k = some m) :
    m = ⟨.Basic, "10"⟩ ∨ m = ⟨.Pro, "30"⟩ ∨ m = ⟨.Elite, "unlimited"⟩ := by
  rcases h with h | h | h
  · obtain ⟨label, hl⟩ := resolvePlanAux_shape p q env.entries m h
    exact hl ▸ planInfoOf_cases label
  · unfold resolvePlanById at h
    cases hj : jsNonEmpty id? with
    | none => rw [hj] at h; cases h
    | some i =>
      rw [hj] at h
      obtain ⟨label, hl⟩ := resolvePlanByIdAux_shape i env.entries m h
      exact hl ▸ planInfoOf_cases label
  · unfold planLimitTable at h
    by_cases h1 : k = "basic"
    · rw [if_pos h1] at h
      injection h with h
      exact Or.inl h.symm
    · rw [if_neg h1] at h
      by_cases h2 : k = "pro"
      · rw [if_pos h2] at h
        injection h with h
        exact Or.inr (Or.inl h.symm)
      · rw [if_neg h2] at h
        by_cases h3 : k = "elite"
        · rw [if_pos h3] at h
          injection h with h
          exact Or.inr (Or.inr h.symm)
        · rw [if_neg h3] at h
          cases h

/-- Concrete instance of C9: the pair the admin table yields for the pro
key is among the three pairs. -/
theorem written_plan_limit_pairs_witness :
    planLimitTable "pro" = some ⟨.Pro, "30"⟩ ∧
    ((⟨.Pro, "30"⟩ : PlanInfo) = ⟨.Basic, "10"⟩ ∨
      (⟨.Pro, "30"⟩ : PlanInfo) = ⟨.Pro, "30"⟩ ∨
      (⟨.Pro, "30"⟩ : PlanInfo) = ⟨.Elite, "unlimited"⟩) :=
  ⟨by decide,
   written_plan_limit_pairs ⟨none, none, none⟩ none none none "pro"
     ⟨.Pro, "30"⟩ (Or.inr (Or.inr (by decide)))⟩

/-- Admin request used for the C10 counterexample: correct secret, valid
email, and a plan parameter carrying trailing whitespace. -/
def c10Req : AdminRequest :=
  ⟨some "sek", none, some "a@b.com", some "pro "⟩

/-- C10 fails as stated: the plan parameter with trailing whitespace is
not, under case-insensitive comparison alone, one of basic, pro, elite,
yet the endpoint performs a store write because the code also trims it. -/
theorem adminGET_trimmed_plan_writes_cex :
    (adminGET (some "sek") c10Req []).writes = 1 ∧
    (adminGET (some "sek") c10Req []).status = 200 ∧
    strToLower "pro " ∉ (["basic", "pro", "elite"] : List String) := by
  decide

/-- C10 amended: a write occurs exactly when the supplied secret (query
parameter taking precedence over the header) is non-empty and equals the
configured admin secret, the trimmed lower-cased plan parameter is one of
basic, pro, elite, and the trimmed lower-cased email is non-empty;
otherwise the endpoint answers 401 on a bad secret or 400 on bad input
with zero writes, and the write it performs is keyed on the trimmed
lower-cased email. -/
theorem adminGET_characterization (adminSecret : Option String)
    (req : AdminRequest) (store : List Row) :
    ((jsNonEmpty (adminSuppliedSecret req) = none ∨
      ∀ s, jsNonEmpty (adminSuppliedSecret req) = some s →
        adminSecret ≠ some s) →
      adminGET adminSecret req store = ⟨401, store, 0⟩) ∧
    (∀ s, jsNonEmpty (adminSuppliedSecret req) = some s →
      adminSecret = some s →
      (adminEmailKey (req.emailParam.getD "") = "" ∨
        planLimitTable (strToLower (strTrim (req.planParam.getD ""))) = none) →
      adminGET adminSecret req store = ⟨400, store, 0⟩) ∧
    (∀ s m, jsNonEmpty (adminSuppliedSecret req) = some s →
      adminSecret = some s →
      adminEmailKey (req.emailParam.getD "") ≠ "" →
      planLimitTable (strToLower (strTrim (req.planParam.getD ""))) = some m →
      adminGET adminSecret req store =
        ⟨200, upsert (mkPlanPayload (adminEmailKey (req.emailParam.getD "")) m)
          store, 1⟩) := by
  refine ⟨?_, ?_, ?_⟩
  · intro h
    cases hss : jsNonEmpty (adminSuppliedSecret req) with
    | none => simp [adminGET, hss]
    | some s =>
      rcases h with h | h
      · rw [h] at hss
        cases hss
      · have hne := h s hss
        simp [adminGET, hss, hne]
  · intro s hss hsec hbad
    rcases hbad with hb | hb
    · simp [adminGET, hss, hsec, hb]
    · by_cases he : adminEmailKey (req.emailParam.getD "") = ""
      · simp [adminGET, hss, hsec, he]
      · simp [adminGET, hss, hsec, he, hb]
  · intro s m hss hsec hne hm
    simp [adminGET, hss, hsec, hne, hm]

/-- Admin request for the concrete C10 instance: mixed-case padded email
and plan. -/
def c10wReq : AdminRequest :=
  ⟨some "sek", none, some " USER@Mail.com ", some "Basic"⟩

/-- Concrete instance of the amended C10: a valid request writes exactly
one row keyed on the trimmed lower-cased email. -/
theorem adminGET_characterization_witness :
    adminEmailKey " USER@Mail.com " = "user@mail.com" ∧
    adminGET (some "sek") c10wReq [] =
      ⟨200, upsert (mkPlanPayload (adminEmailKey " USER@Mail.com ")
        ⟨.Basic, "10"⟩) [], 1⟩ :=
  ⟨by decide,
   (adminGET_characterization (some "sek") c10wReq []).2.2 "sek"
     ⟨.Basic, "10"⟩ (by decide) rfl (by decide) (by decide)⟩

end LandLogiq
